import Mathlib

/-!
Verification of the DHT network discovery state machine
(`comms/dht/src/network_discovery/state_machine.rs`).

The state machine is embedded shallowly: the `transition` method becomes a
pure function returning the next state together with the list of events
published during the transition; the `AtomicUsize` round counter becomes a
natural-number field with explicit wrap-around at the machine word size; the
driver loop `run` becomes a function over a finite oracle of handler events,
where each oracle element is the event the active handler yielded (or
`Shutdown` if the cancellation signal won the race in `or_shutdown`).
-/

/-- Node identifier (`tari_comms::peer_manager::NodeId`); treated as an
abstract identifier. -/
abbrev NodeId := Nat

/-- Durations (`std::time::Duration`), abstracted to a natural count of
time units. -/
abbrev Duration := Nat

/-- `NetworkDiscoveryError`; its variants do not influence the state machine,
so it is abstracted to an error code. -/
structure NetworkDiscoveryError where
  code : Nat
  deriving DecidableEq, Repr

/-- Modelled from the spec: the network-discovery portion of `DhtConfig`
(the config source file is not under `src/`). Recognized options per the
spec's interface section: `enabled`, `idle_period`, `on_failure_idle_period`.
Round sizing parameters are not consumed by the transition function and are
omitted. -/
structure NetworkDiscoveryConfig where
  enabled : Bool
  idle_period : Duration
  on_failure_idle_period : Duration
  deriving DecidableEq, Repr

/-- The containing `DhtConfig`; only its `network_discovery` section is read
by this subsystem. -/
structure DhtConfig where
  network_discovery : NetworkDiscoveryConfig
  deriving DecidableEq, Repr

/-- The machine word modulus for `usize` (64-bit platform): `AtomicUsize`
arithmetic wraps at this bound. -/
def USIZE_MOD : Nat := 2 ^ 64

/-- `NetworkDiscoveryContext`: configuration plus handles and the shared
round counter. The `Arc<PeerManager>`, `ConnectivityRequester` and
`Arc<NodeIdentity>` handles are opaque to the state machine and are
abstracted to identifiers; the `Arc<AtomicUsize>` counter is its current
value. -/
structure NetworkDiscoveryContext where
  config : DhtConfig
  peer_manager : Nat
  connectivity : Nat
  node_identity : Nat
  num_rounds : Nat
  deriving DecidableEq, Repr

/-- `increment_num_rounds`: `self.num_rounds.fetch_add(1, Ordering::AcqRel)`
returns the previous value and stores the incremented value, wrapping at the
machine word size. -/
def NetworkDiscoveryContext.increment_num_rounds (ctx : NetworkDiscoveryContext) :
    Nat × NetworkDiscoveryContext :=
  (ctx.num_rounds, { ctx with num_rounds := (ctx.num_rounds + 1) % USIZE_MOD })

/-- `num_rounds()`: `self.num_rounds.load(Ordering::Relaxed)`, a pure read of
the counter. -/
def NetworkDiscoveryContext.num_rounds_load (ctx : NetworkDiscoveryContext) : Nat :=
  ctx.num_rounds

/-- `reset_num_rounds`: `self.num_rounds.store(0, Ordering::Release)`. -/
def NetworkDiscoveryContext.reset_num_rounds (ctx : NetworkDiscoveryContext) :
    NetworkDiscoveryContext :=
  { ctx with num_rounds := 0 }

/-- `DhtNetworkDiscoveryRoundInfo`: aggregate statistics of one discovery
round. -/
structure DhtNetworkDiscoveryRoundInfo where
  num_new_neighbours : Nat
  num_new_peers : Nat
  num_duplicate_peers : Nat
  num_succeeded : Nat
  sync_peers : List NodeId
  deriving DecidableEq, Repr

/-- `has_new_peers`: `self.num_new_peers > 0`. -/
def DhtNetworkDiscoveryRoundInfo.has_new_peers (r : DhtNetworkDiscoveryRoundInfo) : Bool :=
  r.num_new_peers > 0

/-- `has_new_neighbours`: `self.num_new_neighbours > 0`. -/
def DhtNetworkDiscoveryRoundInfo.has_new_neighbours (r : DhtNetworkDiscoveryRoundInfo) : Bool :=
  r.num_new_neighbours > 0

/-- `is_success`: `self.num_succeeded > 0`. -/
def DhtNetworkDiscoveryRoundInfo.is_success (r : DhtNetworkDiscoveryRoundInfo) : Bool :=
  r.num_succeeded > 0

/-- `DiscoveryParams`: the candidate peers and sizing for one round. -/
structure DiscoveryParams where
  peers : List NodeId
  num_peers_to_request : Nat
  max_accept_closer_peers : Nat
  deriving DecidableEq, Repr

/-- Modelled from the spec: the `DiscoveryReady` handler state (its source
file `ready.rs` is not under `src/`). Per the transition table it is either
constructed fresh (`DiscoveryReady::initial`) or seeded with the prior
round's statistics (`DiscoveryReady::new`). -/
structure DiscoveryReady where
  context : NetworkDiscoveryContext
  last_round : Option DhtNetworkDiscoveryRoundInfo
  deriving DecidableEq, Repr

/-- `DiscoveryReady::initial(context)`: a fresh Ready handler. -/
def DiscoveryReady.initial (ctx : NetworkDiscoveryContext) : DiscoveryReady :=
  ⟨ctx, none⟩

/-- `DiscoveryReady::new(context, stats)`: a Ready handler seeded with the
prior round's statistics. -/
def DiscoveryReady.new (ctx : NetworkDiscoveryContext)
    (stats : DhtNetworkDiscoveryRoundInfo) : DiscoveryReady :=
  ⟨ctx, some stats⟩

/-- Modelled from the spec: the `Discovering` handler state (its source file
`discovering.rs` is not under `src/`); it owns the round's params and a clone
of the context. -/
structure Discovering where
  params : DiscoveryParams
  context : NetworkDiscoveryContext
  deriving DecidableEq, Repr

/-- `Discovering::new(params, context)`. -/
def Discovering.new (params : DiscoveryParams) (ctx : NetworkDiscoveryContext) : Discovering :=
  ⟨params, ctx⟩

/-- Modelled from the spec: the `Waiting` handler state (its source file
`waiting.rs` is not under `src/`); a timer state constructed from a duration
(the `From<Duration>` impl used by `.into()` in `transition`). -/
structure Waiting where
  duration : Duration
  deriving DecidableEq, Repr

/-- The `From<Duration> for Waiting` conversion invoked by `.into()`. -/
def Waiting.fromDuration (d : Duration) : Waiting :=
  ⟨d⟩

/-- `State`: the closed state type of the machine. -/
inductive State where
  | Initializing : State
  | Ready : DiscoveryReady → State
  | Discovering : Discovering → State
  | Waiting : Waiting → State
  | Shutdown : State
  deriving DecidableEq, Repr

/-- `State::is_shutdown`. -/
def State.is_shutdown : State → Bool
  | State.Shutdown => true
  | _ => false

/-- Discriminator for the `Initializing` variant (used to count constructions
of the Initializing handler in the driver loop model). -/
def State.isInitializing : State → Bool
  | State.Initializing => true
  | _ => false

/-- Discriminator for the `Discovering` variant. -/
def State.isDiscovering : State → Bool
  | State.Discovering _ => true
  | _ => false

/-- `StateEvent`: the closed event type consumed by the transition
function. -/
inductive StateEvent where
  | Initialized : StateEvent
  | BeginDiscovery : DiscoveryParams → StateEvent
  | Ready : StateEvent
  | Idle : StateEvent
  | DiscoveryComplete : DhtNetworkDiscoveryRoundInfo → StateEvent
  | Errored : NetworkDiscoveryError → StateEvent
  | Shutdown : StateEvent
  deriving DecidableEq, Repr

/-- `DhtEvent`, restricted to the variant published by this subsystem. -/
inductive DhtEvent where
  | NetworkDiscoveryPeersAdded : DhtNetworkDiscoveryRoundInfo → DhtEvent
  deriving DecidableEq, Repr

/-- `DhtNetworkDiscovery`: the driver. The broadcast sender `event_tx` is
modelled by returning published events, and the shutdown signal by the event
oracle of `run`. -/
structure DhtNetworkDiscovery where
  context : NetworkDiscoveryContext
  deriving DecidableEq, Repr

/-- `DhtNetworkDiscovery::config()`. -/
def DhtNetworkDiscovery.config (self : DhtNetworkDiscovery) : DhtConfig :=
  self.context.config

/-- `DhtNetworkDiscovery::transition`: first-match-wins over the match arms of
the source, in source order. `publish_event` calls become elements of the
returned list (the source's `publish_event` is a best-effort
`broadcast::Sender::send` whose result is discarded). Logging is not
modelled. -/
def DhtNetworkDiscovery.transition (self : DhtNetworkDiscovery) (current_state : State)
    (next_event : StateEvent) : State × List DhtEvent :=
  match current_state, next_event with
  | State.Initializing, StateEvent.Initialized =>
    (State.Ready (DiscoveryReady.initial self.context), [])
  | _, StateEvent.Ready =>
    (State.Ready (DiscoveryReady.initial self.context), [])
  | State.Ready _, StateEvent.BeginDiscovery params =>
    (State.Discovering (Discovering.new params self.context), [])
  | State.Discovering _, StateEvent.DiscoveryComplete stats =>
    let published :=
      if stats.has_new_peers then [DhtEvent.NetworkDiscoveryPeersAdded stats] else []
    if !stats.is_success then
      (State.Waiting
        (Waiting.fromDuration self.config.network_discovery.on_failure_idle_period),
       published)
    else
      (State.Ready (DiscoveryReady.new self.context stats), published)
  | State.Ready _, StateEvent.Idle =>
    (State.Waiting (Waiting.fromDuration self.config.network_discovery.idle_period), [])
  | _, StateEvent.Shutdown =>
    (State.Shutdown, [])
  | _, StateEvent.Errored _ =>
    (State.Waiting
      (Waiting.fromDuration self.config.network_discovery.on_failure_idle_period), [])
  | state, _ =>
    (state, [])

/-- The spec's transition table as a predicate on (state, event) pairs:
whether some row of the table matches the pair. Written from the spec's
table, to be compared against the source's `transition`. -/
def specTableMatches : State → StateEvent → Bool
  | State.Initializing, StateEvent.Initialized => true
  | _, StateEvent.Ready => true
  | State.Ready _, StateEvent.BeginDiscovery _ => true
  | State.Discovering _, StateEvent.DiscoveryComplete _ => true
  | State.Ready _, StateEvent.Idle => true
  | _, StateEvent.Shutdown => true
  | _, StateEvent.Errored _ => true
  | _, _ => false

/-- `get_next_event`, with the awaited handler result supplied by an oracle:
the four live states yield their handler's event; the catch-all arm (the
`Shutdown` state) yields `StateEvent::Shutdown`. -/
def DhtNetworkDiscovery.get_next_event (state : State) (handler_event : StateEvent) :
    StateEvent :=
  match state with
  | State.Initializing => handler_event
  | State.Ready _ => handler_event
  | State.Discovering _ => handler_event
  | State.Waiting _ => handler_event
  | _ => StateEvent.Shutdown

/-- Observable outcome of a `run` invocation: how many times the
`Initializing` handler was constructed, how many state transitions were
applied, and which events were published. -/
structure RunResult where
  num_initializing_constructed : Nat
  num_transitions : Nat
  published : List DhtEvent
  deriving DecidableEq, Repr

/-- The body of `run`'s loop over a finite oracle of handler events (each
oracle element is the handler's yielded event, already accounting for the
`or_shutdown` race: if the cancellation signal won, the element is
`Shutdown`). The loop breaks when the next state `is_shutdown`; an exhausted
oracle ends the observation. -/
def DhtNetworkDiscovery.runLoop (self : DhtNetworkDiscovery) :
    State → List StateEvent → RunResult
  | _, [] => ⟨0, 0, []⟩
  | state, handler_event :: rest =>
    let next_event := DhtNetworkDiscovery.get_next_event state handler_event
    let constructed := if state.isInitializing then 1 else 0
    let step := self.transition state next_event
    if step.1.is_shutdown then
      ⟨constructed, 1, step.2⟩
    else
      let r := DhtNetworkDiscovery.runLoop self step.1 rest
      ⟨constructed + r.num_initializing_constructed, 1 + r.num_transitions,
       step.2 ++ r.published⟩

/-- `DhtNetworkDiscovery::run`: the guard `!self.config().network_discovery.enabled`
returns before the loop; otherwise the loop starts at `State::Initializing`. -/
def DhtNetworkDiscovery.run (self : DhtNetworkDiscovery) (oracle : List StateEvent) :
    RunResult :=
  if !self.config.network_discovery.enabled then
    ⟨0, 0, []⟩
  else
    DhtNetworkDiscovery.runLoop self State.Initializing oracle

/-- A concrete configuration for concrete evaluations: discovery enabled,
idle period 30, failure idle period 60. -/
def cfg0 : NetworkDiscoveryConfig :=
  { enabled := true, idle_period := 30, on_failure_idle_period := 60 }

/-- A concrete context built over the concrete config. -/
def ctx0 : NetworkDiscoveryContext :=
  { config := ⟨cfg0⟩, peer_manager := 0, connectivity := 0, node_identity := 0,
    num_rounds := 0 }

/-- A concrete driver. -/
def self0 : DhtNetworkDiscovery :=
  ⟨ctx0⟩

/-- A concrete fresh Ready handler state. -/
def ready0 : DiscoveryReady :=
  DiscoveryReady.initial ctx0

/-- A concrete round outcome with new peers and successes. -/
def info5 : DhtNetworkDiscoveryRoundInfo :=
  { num_new_neighbours := 0, num_new_peers := 5, num_duplicate_peers := 0,
    num_succeeded := 3, sync_peers := [] }

/-- A concrete driver whose configuration disables network discovery. -/
def selfDisabled : DhtNetworkDiscovery :=
  ⟨{ ctx0 with config := ⟨{ cfg0 with enabled := false }⟩ }⟩

/-- Claim C1, counterexample: the claim that every event applied to `Shutdown`
yields `Shutdown` is false — the wildcard arm for `StateEvent::Ready` matches
the `Shutdown` state as well, producing a fresh `Ready` state. -/
theorem shutdown_ready_counterexample :
    (self0.transition State.Shutdown StateEvent.Ready).1 ≠ State.Shutdown := by
  decide

/-- Claim C1, amended: a transition from `Shutdown` yields `Shutdown` for every
event except the wildcard rows: `StateEvent::Ready` yields a fresh `Ready`
state and `StateEvent::Errored` yields `Waiting` for the failure idle
period. -/
theorem shutdown_transitions_amended (self : DhtNetworkDiscovery) (E : StateEvent) :
    (self.transition State.Shutdown E).1 =
      match E with
      | StateEvent.Ready => State.Ready (DiscoveryReady.initial self.context)
      | StateEvent.Errored _ =>
        State.Waiting
          (Waiting.fromDuration self.config.network_discovery.on_failure_idle_period)
      | _ => State.Shutdown := by
  cases E <;> rfl

/-- Claim C2: the `Shutdown` event always produces the `Shutdown` state from
every current state, publishing nothing. -/
theorem shutdown_event_absorbs (self : DhtNetworkDiscovery) (s : State) :
    self.transition s StateEvent.Shutdown = (State.Shutdown, []) := by
  cases s <;> rfl

/-- Claim C3: for every current state and every error, the `Errored` event
yields `Waiting` carrying exactly the configured failure idle period,
publishing nothing. -/
theorem errored_routes_to_waiting (self : DhtNetworkDiscovery) (s : State)
    (e : NetworkDiscoveryError) :
    self.transition s (StateEvent.Errored e) =
      (State.Waiting
        (Waiting.fromDuration self.config.network_discovery.on_failure_idle_period),
       []) := by
  cases s <;> rfl

/-- Claim C4: from `Discovering`, `DiscoveryComplete(info)` yields `Ready`
(seeded with `info`) when the round succeeded, and `Waiting` for the
configured failure idle period when it did not. -/
theorem discovery_complete_routes (self : DhtNetworkDiscovery) (d : Discovering)
    (info : DhtNetworkDiscoveryRoundInfo) :
    (self.transition (State.Discovering d) (StateEvent.DiscoveryComplete info)).1 =
      if info.is_success then State.Ready (DiscoveryReady.new self.context info)
      else
        State.Waiting
          (Waiting.fromDuration self.config.network_discovery.on_failure_idle_period) := by
  cases h : info.is_success <;> simp [DhtNetworkDiscovery.transition, h]

/-- Claim C5: from `Discovering`, `DiscoveryComplete(info)` publishes exactly
one `NetworkDiscoveryPeersAdded` event carrying `info` when the round found
new peers and publishes nothing otherwise; the published events do not depend
on `is_success`. -/
theorem discovery_complete_publishes (self : DhtNetworkDiscovery) (d : Discovering)
    (info : DhtNetworkDiscoveryRoundInfo) :
    (self.transition (State.Discovering d) (StateEvent.DiscoveryComplete info)).2 =
      if info.has_new_peers then [DhtEvent.NetworkDiscoveryPeersAdded info] else [] := by
  cases h : info.is_success <;> simp [DhtNetworkDiscovery.transition, h]

/-- Claim C6: every (state, event) pair not matched by a row of the transition
table is a no-op: the transition returns the current state unchanged and
publishes nothing. -/
theorem unmatched_pairs_noop (self : DhtNetworkDiscovery) (s : State) (e : StateEvent)
    (h : specTableMatches s e = false) :
    self.transition s e = (s, []) := by
  cases s <;> cases e <;> first | rfl | simp_all [specTableMatches]

/-- Claim C6, witness: the pair (`Initializing`, `Idle`) is unmatched and the
transition leaves the state unchanged. -/
theorem unmatched_pairs_noop_witness :
    specTableMatches State.Initializing StateEvent.Idle = false ∧
    self0.transition State.Initializing StateEvent.Idle = (State.Initializing, []) :=
  ⟨rfl, unmatched_pairs_noop self0 State.Initializing StateEvent.Idle rfl⟩

/-- Claim C7: the three derived predicates of `DhtNetworkDiscoveryRoundInfo`
hold exactly when the corresponding counter is positive; as Lean functions
they are pure and leave the record untouched. -/
theorem round_info_predicates_correct (r : DhtNetworkDiscoveryRoundInfo) :
    (r.has_new_peers = true ↔ 0 < r.num_new_peers) ∧
    (r.has_new_neighbours = true ↔ 0 < r.num_new_neighbours) ∧
    (r.is_success = true ↔ 0 < r.num_succeeded) := by
  simp [DhtNetworkDiscoveryRoundInfo.has_new_peers,
    DhtNetworkDiscoveryRoundInfo.has_new_neighbours,
    DhtNetworkDiscoveryRoundInfo.is_success]

/-- Claim C8: `increment_num_rounds` returns the previous count and advances
the counter by one, wrapping to zero at the machine word bound; the load
operation returns the current count; `reset_num_rounds` sets it to zero. -/
theorem num_rounds_counter_spec (ctx : NetworkDiscoveryContext)
    (h : ctx.num_rounds < USIZE_MOD) :
    ctx.increment_num_rounds.1 = ctx.num_rounds ∧
    ctx.increment_num_rounds.2.num_rounds =
      (if ctx.num_rounds + 1 < USIZE_MOD then ctx.num_rounds + 1 else 0) ∧
    ctx.num_rounds_load = ctx.num_rounds ∧
    ctx.reset_num_rounds.num_rounds = 0 := by
  refine ⟨rfl, ?_, rfl, rfl⟩
  by_cases h1 : ctx.num_rounds + 1 < USIZE_MOD
  · simp [NetworkDiscoveryContext.increment_num_rounds, Nat.mod_eq_of_lt h1, h1]
  · have h2 : ctx.num_rounds + 1 = USIZE_MOD := by omega
    simp [NetworkDiscoveryContext.increment_num_rounds, h1, h2]

/-- Claim C8, witness: the counter operations evaluated on the concrete
context. -/
theorem num_rounds_counter_spec_witness :
    ctx0.num_rounds < USIZE_MOD ∧
    (ctx0.increment_num_rounds.1 = ctx0.num_rounds ∧
     ctx0.increment_num_rounds.2.num_rounds =
       (if ctx0.num_rounds + 1 < USIZE_MOD then ctx0.num_rounds + 1 else 0) ∧
     ctx0.num_rounds_load = ctx0.num_rounds ∧
     ctx0.reset_num_rounds.num_rounds = 0) :=
  ⟨by decide, num_rounds_counter_spec ctx0 (by decide)⟩

/-- Claim C9: when network discovery is disabled by configuration, `run`
returns immediately: no `Initializing` handler is constructed, no transition
is applied and no event is published, for every possible oracle of handler
events. -/
theorem run_disabled_returns_immediately (self : DhtNetworkDiscovery)
    (oracle : List StateEvent)
    (h : self.config.network_discovery.enabled = false) :
    self.run oracle = ⟨0, 0, []⟩ := by
  simp [DhtNetworkDiscovery.run, h]

/-- Claim C9, witness: the disabled driver run against a nonempty oracle. -/
theorem run_disabled_returns_immediately_witness :
    selfDisabled.config.network_discovery.enabled = false ∧
    selfDisabled.run [StateEvent.Initialized] = ⟨0, 0, []⟩ :=
  ⟨rfl, run_disabled_returns_immediately selfDisabled [StateEvent.Initialized] rfl⟩

/-- Claim C10: from every non-`Discovering` state, `DiscoveryComplete(info)`
returns the state unchanged and publishes nothing — even when `info` has new
peers — and no event at all causes a publication from such a state. -/
theorem discovery_complete_only_from_discovering (self : DhtNetworkDiscovery)
    (s : State) (info : DhtNetworkDiscoveryRoundInfo) (e : StateEvent)
    (h : s.isDiscovering = false) :
    self.transition s (StateEvent.DiscoveryComplete info) = (s, []) ∧
    (self.transition s e).2 = [] := by
  cases s with
  | Discovering d => simp [State.isDiscovering] at h
  | Initializing => exact ⟨rfl, by cases e <;> rfl⟩
  | Ready r => exact ⟨rfl, by cases e <;> rfl⟩
  | Waiting w => exact ⟨rfl, by cases e <;> rfl⟩
  | Shutdown => exact ⟨rfl, by cases e <;> rfl⟩

/-- Claim C10, witness: from `Ready`, a completed round with five new peers is
ignored and publishes nothing. -/
theorem discovery_complete_only_from_discovering_witness :
    (State.Ready ready0).isDiscovering = false ∧
    (self0.transition (State.Ready ready0) (StateEvent.DiscoveryComplete info5) =
       (State.Ready ready0, []) ∧
     (self0.transition (State.Ready ready0) (StateEvent.DiscoveryComplete info5)).2 = []) :=
  ⟨rfl,
   discovery_complete_only_from_discovering self0 (State.Ready ready0) info5
     (StateEvent.DiscoveryComplete info5) rfl⟩
